import Mathlib

/-!
Verification of the metadata-extraction engine of the ormlite attribute crate
(src/attr/src/metadata.rs), shallowly embedded in Lean 4.

The embedding models the Rust source directly.  Rust `Result` values together
with the possibility of a `panic!` (from `unwrap` / `expect`) are modelled by
the three-valued `Outcome` type below.  Attribute token streams are assumed to
arrive pre-parsed (the attribute grammar is an external collaborator), so the
`parse_args` steps are represented by already-structured attribute records.
-/

/-- Outcome of a fallible Rust computation: a value, a returned error
(`Result::Err` carrying the SyndecodeError message), or a panic (from
`unwrap`/`expect`), which is not a value and propagates. -/
inductive Outcome (α : Type) where
  | ok : α → Outcome α
  | err : String → Outcome α
  | panic : String → Outcome α
deriving Repr

/- Model of `syn::Type` restricted to what the source inspects: a path type
is a list of segments; every other type shape is collapsed to `other`
(the source only ever matches on `Type::Path` and treats the rest
uniformly). -/
mutual
inductive Ty where
  | path : List PathSegment → Ty
  | other : Ty

inductive PathSegment where
  | mk : String → PathArguments → PathSegment

inductive PathArguments where
  | noArgs : PathArguments
  | angleBracketed : List GenericArg → PathArguments
  | parenthesized : PathArguments

inductive GenericArg where
  | type : Ty → GenericArg
  | otherArg : GenericArg
end

def PathSegment.ident : PathSegment → String
  | PathSegment.mk i _ => i

def PathSegment.arguments : PathSegment → PathArguments
  | PathSegment.mk _ a => a

/-- Parsed field-level `#[ormlite(...)]` attribute options (the
`ColumnAttributes` collaborator): two flags and three optional paths. -/
structure ColumnAttributes where
  primary_key : Bool
  default : Bool
  many_to_one_key : Option (List PathSegment)
  many_to_many_table_name : Option (List PathSegment)
  one_to_many_foreign_key : Option (List PathSegment)

/-- Parsed type-level `#[ormlite(...)]` attribute options (the
`ModelAttributes` collaborator): optional table-name string literal and
optional Insertable identifier (already stringified). -/
structure ModelAttributes where
  table : Option String
  Insertable : Option String

/-- A struct field (`syn::Field`) as the extractor sees it: optional
identifier (tuple fields have none), type expression, and the ormlite
attribute groups attached to it, in source order. -/
structure FieldDecl where
  ident : Option String
  ty : Ty
  attrs : List ColumnAttributes

/-- The record type declaration (`syn::DeriveInput`): identifier, type-level
ormlite attribute groups, ordered fields. -/
structure DeriveInput where
  ident : String
  attrs : List ModelAttributes
  fields : List FieldDecl

/-- All the metadata captured about a column (struct `ColumnMetadata`). -/
structure ColumnMetadata where
  column_name : String
  column_type : Ty
  marked_primary_key : Bool
  has_database_default : Bool
  identifier : String
  many_to_one_key : Option String
  many_to_many_table_name : Option (List PathSegment)
  one_to_many_foreign_key : Option (List PathSegment)

/-- All the metadata captured about a table (struct `TableMetadata`). -/
structure TableMetadata where
  table_name : String
  struct_name : String
  primary_key : Option String
  columns : List ColumnMetadata
  insert_struct : Option String

/-- The derive_builder-generated staged builder for `TableMetadata`: every
target field wrapped in `Option`. -/
structure TableMetadataBuilder where
  table_name : Option String
  struct_name : Option String
  primary_key : Option (Option String)
  columns : Option (List ColumnMetadata)
  insert_struct : Option (Option String)

/-- `fn ty_is_join`: whether the given type is a path type whose last segment
is named `Join`. -/
def ty_is_join : Ty → Bool
  | Ty.path segs =>
    match segs.getLast? with
    | Option.some s => s.ident == "Join"
    | Option.none => false
  | Ty.other => false

def ColumnMetadata.is_join (c : ColumnMetadata) : Bool :=
  ty_is_join c.column_type

/-- `ColumnMetadata::joined_struct`: the identifier of the last segment of the
last (path-shaped) generic argument of the type's last segment, when the
column is a join; `none` on any shape mismatch. -/
def ColumnMetadata.joined_struct (c : ColumnMetadata) : Option String :=
  if !c.is_join then Option.none
  else
    match c.column_type with
    | Ty.other => Option.none
    | Ty.path segs =>
      match segs.getLast? with
      | Option.none => Option.none
      | Option.some seg =>
        match seg.arguments with
        | PathArguments.angleBracketed args =>
          match args.getLast? with
          | Option.some (GenericArg.type (Ty.path segs2)) =>
            (segs2.getLast?).map PathSegment.ident
          | Option.some (GenericArg.type Ty.other) => Option.none
          | Option.some GenericArg.otherArg => Option.none
          | Option.none => Option.none
        | _ => Option.none

/-- The `primary_key` / `default` flag handling at the head of the attribute
loop in `ColumnMetadata::try_from`. -/
def applyFlags (c : ColumnMetadata) (args : ColumnAttributes) : ColumnMetadata :=
  let c1 := if args.primary_key then
      { c with marked_primary_key := true, has_database_default := true }
    else c
  if args.default then { c1 with has_database_default := true } else c1

/-- The `many_to_many_table_name` / `one_to_many_foreign_key` handling of one
attribute group; returns the updated column and join-directive flag. -/
def applyTail (c : ColumnMetadata) (hj : Bool) (args : ColumnAttributes) :
    ColumnMetadata × Bool :=
  let p := match args.many_to_many_table_name with
    | Option.some v => ({ c with many_to_many_table_name := Option.some v }, true)
    | Option.none => (c, hj)
  match args.one_to_many_foreign_key with
  | Option.some v => ({ p.1 with one_to_many_foreign_key := Option.some v }, true)
  | Option.none => p

/-- Processing of one `#[ormlite(...)]` attribute group in
`ColumnMetadata::try_from`.  The `many_to_one_key` arm calls
`segments.last().unwrap()`, which panics on an empty path. -/
def applyAttr (c : ColumnMetadata) (hj : Bool) (args : ColumnAttributes) :
    Outcome (ColumnMetadata × Bool) :=
  let c1 := applyFlags c args
  match args.many_to_one_key with
  | Option.none => Outcome.ok (applyTail c1 hj args)
  | Option.some value =>
    match value.getLast? with
    | Option.none => Outcome.panic ("called Option::unwrap() on a None value")
    | Option.some seg =>
      Outcome.ok (applyTail { c1 with many_to_one_key := Option.some seg.ident } true args)

/-- The attribute loop of `ColumnMetadata::try_from`, threading the builder
state and the `has_join_directive` flag. -/
def processAttrs (c : ColumnMetadata) (hj : Bool) :
    List ColumnAttributes → Outcome (ColumnMetadata × Bool)
  | [] => Outcome.ok (c, hj)
  | args :: rest =>
    match applyAttr c hj args with
    | Outcome.ok p => processAttrs p.1 p.2 rest
    | Outcome.err e => Outcome.err e
    | Outcome.panic e => Outcome.panic e

/-- The default column descriptor initialization in
`ColumnMetadata::try_from` (lines 152-161). -/
def initColumn (ident : String) (ty : Ty) : ColumnMetadata :=
  { column_name := ident
    column_type := ty
    marked_primary_key := false
    has_database_default := false
    identifier := ident
    many_to_one_key := Option.none
    many_to_many_table_name := Option.none
    one_to_many_foreign_key := Option.none }

/-- `impl TryFrom<&Field> for ColumnMetadata`.  `f.ident.expect("No ident on
field")` panics on a tuple-style field; a join-typed field with no join
directive is a returned error. -/
def ColumnMetadata.try_from (f : FieldDecl) : Outcome ColumnMetadata :=
  match f.ident with
  | Option.none => Outcome.panic ("No ident on field")
  | Option.some ident =>
    match processAttrs (initColumn ident f.ty) false f.attrs with
    | Outcome.ok (c, hj) =>
      if ty_is_join f.ty && !hj then
        Outcome.err ("Column " ++ ident ++ " is a Join. You must specify one of: many_to_one_key, many_to_many_table_name, or one_to_many_foreign_key")
      else
        Outcome.ok c
    | Outcome.err e => Outcome.err e
    | Outcome.panic e => Outcome.panic e

/-- Modelled from the spec: the snake_case conversion performed by the
external convert_case collaborator (`to_case(Case::Snake)` on line 44), whose
implementation is not part of this repository's sources.  Per the spec, the
conversion splits on ASCII letter-case boundaries and joins lowercase tokens
with an underscore. -/
def snakeAux : Char → List Char → List Char
  | _, [] => []
  | prev, c :: rest =>
    if c.isUpper && prev.isLower then
      '_' :: c.toLower :: snakeAux c rest
    else
      c.toLower :: snakeAux c rest

def to_snake_case (s : String) : String :=
  match s.toList with
  | [] => ""
  | c :: rest => String.mk (c.toLower :: snakeAux c rest)

/-- Lines 50-54: name of the first column marked `primary_key`, if any. -/
def findMarkedPk (cols : List ColumnMetadata) : Option String :=
  ((cols.filter (fun c => c.marked_primary_key)).head?).map (fun c => c.column_name)

/-- The candidate column-name list of lines 57-62. -/
def pkCandidates (t : String) : List String :=
  ["id", "uuid", t ++ "_id", t ++ "_uuid"]

/-- Lines 55-70: scan columns in order for the first whose name is a
primary-key candidate; set its `has_database_default` and stop. -/
def inferPk (t : String) : List ColumnMetadata → Option String × List ColumnMetadata
  | [] => (Option.none, [])
  | c :: rest =>
    if (pkCandidates t).contains c.column_name then
      (Option.some c.column_name, { c with has_database_default := true } :: rest)
    else
      let p := inferPk t rest
      (p.1, c :: p.2)

/-- Lines 47-48: run `ColumnMetadata::try_from` over the fields in declaration
order, collecting into a `Result` (first error aborts). -/
def collectColumns : List FieldDecl → Outcome (List ColumnMetadata)
  | [] => Outcome.ok []
  | f :: rest =>
    match ColumnMetadata.try_from f with
    | Outcome.ok c =>
      match collectColumns rest with
      | Outcome.ok cs => Outcome.ok (c :: cs)
      | Outcome.err e => Outcome.err e
      | Outcome.panic e => Outcome.panic e
    | Outcome.err e => Outcome.err e
    | Outcome.panic e => Outcome.panic e

/-- `TableMetadataBuilder::complete_with_struct_body`.  Note line 49: the
collected column `Result` is immediately `unwrap()`ed, so a column error
becomes a panic here, not a returned error. -/
def TableMetadataBuilder.complete_with_struct_body (b : TableMetadataBuilder)
    (ast : DeriveInput) : Outcome TableMetadata :=
  let table_name := b.table_name.getD (to_snake_case ast.ident)
  match collectColumns ast.fields with
  | Outcome.err e => Outcome.panic ("called Result::unwrap() on an Err value: " ++ e)
  | Outcome.panic e => Outcome.panic e
  | Outcome.ok cols =>
    let pk0 := findMarkedPk cols
    let pr := if pk0.isSome then (pk0, cols) else inferPk table_name cols
    match b.struct_name, b.insert_struct with
    | Option.some sn, Option.some ins =>
      Outcome.ok
        { table_name := table_name
          struct_name := sn
          primary_key := pr.1
          columns := pr.2
          insert_struct := ins }
    | _, _ => Outcome.err ("UninitializedFieldError")

/-- One iteration of the attribute loop in
`TableMetadata::builder_from_struct_attributes`. -/
def applyModelAttr (b : TableMetadataBuilder) (args : ModelAttributes) :
    TableMetadataBuilder :=
  let b1 := match args.table with
    | Option.some v => { b with table_name := Option.some v }
    | Option.none => b
  match args.Insertable with
  | Option.some v => { b1 with insert_struct := Option.some (Option.some v) }
  | Option.none => b1

/-- The builder as seeded in `TableMetadata::builder_from_struct_attributes`
before the attribute loop: struct identifier set, `insert_struct = None`. -/
def initialBuilder (ast : DeriveInput) : TableMetadataBuilder :=
  { table_name := Option.none
    struct_name := Option.some ast.ident
    primary_key := Option.none
    columns := Option.none
    insert_struct := Option.some Option.none }

/-- The builder after the attribute loop of
`TableMetadata::builder_from_struct_attributes`. -/
def builtBuilder (ast : DeriveInput) : TableMetadataBuilder :=
  ast.attrs.foldl applyModelAttr (initialBuilder ast)

/-- `TableMetadata::builder_from_struct_attributes`: seed the builder with the
struct identifier and `insert_struct = None`, then fold the type-level
attribute groups.  (The `parse_args` error path belongs to the external
attribute parser; inputs here arrive pre-parsed.) -/
def TableMetadata.builder_from_struct_attributes (ast : DeriveInput) :
    Outcome TableMetadataBuilder :=
  Outcome.ok (builtBuilder ast)

/-- `impl TryFrom<&DeriveInput> for TableMetadata` — the public
`build_table_descriptor` entry point: build the builder from struct
attributes, complete it with the struct body, then replace a successful
result with no primary key by the missing-primary-key error. -/
def TableMetadata.try_from (ast : DeriveInput) : Outcome TableMetadata :=
  match TableMetadata.builder_from_struct_attributes ast with
  | Outcome.err e => Outcome.err e
  | Outcome.panic e => Outcome.panic e
  | Outcome.ok b =>
    match b.complete_with_struct_body ast with
    | Outcome.ok meta =>
      match meta.primary_key with
      | Option.none =>
        Outcome.err ("No column marked with #[ormlite(primary_key)], and no column named id, uuid, " ++ meta.table_name ++ "_id, or " ++ meta.table_name ++ "_uuid")
      | Option.some _ => Outcome.ok meta
    | Outcome.err e => Outcome.err e
    | Outcome.panic e => Outcome.panic e

/-- Whether at least one of the three join fields of a column is set. -/
def hasJoinField (c : ColumnMetadata) : Bool :=
  c.many_to_one_key.isSome || c.many_to_many_table_name.isSome ||
    c.one_to_many_foreign_key.isSome

/-- How many of the three join fields of a column are set. -/
def countJoinFields (c : ColumnMetadata) : Nat :=
  (if c.many_to_one_key.isSome then 1 else 0) +
    (if c.many_to_many_table_name.isSome then 1 else 0) +
    (if c.one_to_many_foreign_key.isSome then 1 else 0)

/-- Whether an attribute group carries none of the three join directives. -/
def noJoinDirective (args : ColumnAttributes) : Bool :=
  args.many_to_one_key.isNone && args.many_to_many_table_name.isNone &&
    args.one_to_many_foreign_key.isNone

/-- The last value of the `table` option across the type-level attribute
groups (last write wins), if any. -/
def tableDirective (ast : DeriveInput) : Option String :=
  (ast.attrs.filterMap ModelAttributes.table).getLast?

/-! Concrete inputs used by the theorems below. -/

/-- A path segment with no generic arguments. -/
def pathSeg (n : String) : PathSegment :=
  PathSegment.mk n PathArguments.noArgs

/-- A plain (non-generic, single-segment) path type such as `i32`. -/
def plainTy (n : String) : Ty :=
  Ty.path [pathSeg n]

/-- The join wrapper type `Join<N>`. -/
def joinTy (n : String) : Ty :=
  Ty.path [PathSegment.mk ("Join") (PathArguments.angleBracketed
    [GenericArg.type (plainTy n)])]

/-- An ormlite attribute group with no options set. -/
def noColAttr : ColumnAttributes :=
  { primary_key := false
    default := false
    many_to_one_key := Option.none
    many_to_many_table_name := Option.none
    one_to_many_foreign_key := Option.none }

/-- A field with a plain type and no attributes. -/
def plainField (n : String) (t : String) : FieldDecl :=
  { ident := Option.some n, ty := plainTy t, attrs := [] }

/-- C1 input: `struct Order { id: i32, customer: Join<Customer> }` with no
join directive on `customer`. -/
def c1OrderDecl : DeriveInput :=
  { ident := "Order"
    attrs := []
    fields := [plainField ("id") ("i32"),
      { ident := Option.some ("customer"), ty := joinTy ("Customer"), attrs := [] }] }

/-- C2 counterexample input: a join column carrying two join directives, and a
non-join column carrying one join directive. -/
def c2Decl : DeriveInput :=
  { ident := "Order"
    attrs := []
    fields := [plainField ("id") ("i32"),
      { ident := Option.some ("customer"), ty := joinTy ("Customer"),
        attrs := [{ noColAttr with
          many_to_one_key := Option.some [pathSeg ("customer_id")],
          many_to_many_table_name := Option.some [pathSeg ("order_customer")] }] },
      { ident := Option.some ("note"), ty := plainTy ("String"),
        attrs := [{ noColAttr with
          one_to_many_foreign_key := Option.some [pathSeg ("note_fk")] }] }] }

/-- The `id` column produced for `c2Decl` (inferred primary key). -/
def c2IdCol : ColumnMetadata :=
  { column_name := "id", column_type := plainTy ("i32")
    marked_primary_key := false, has_database_default := true
    identifier := "id"
    many_to_one_key := Option.none
    many_to_many_table_name := Option.none
    one_to_many_foreign_key := Option.none }

/-- The `customer` column produced for `c2Decl`: join-typed, with TWO join
fields set. -/
def c2CustCol : ColumnMetadata :=
  { column_name := "customer", column_type := joinTy ("Customer")
    marked_primary_key := false, has_database_default := false
    identifier := "customer"
    many_to_one_key := Option.some ("customer_id")
    many_to_many_table_name := Option.some [pathSeg ("order_customer")]
    one_to_many_foreign_key := Option.none }

/-- The `note` column produced for `c2Decl`: not join-typed, yet with one join
field set. -/
def c2NoteCol : ColumnMetadata :=
  { column_name := "note", column_type := plainTy ("String")
    marked_primary_key := false, has_database_default := false
    identifier := "note"
    many_to_one_key := Option.none
    many_to_many_table_name := Option.none
    one_to_many_foreign_key := Option.some [pathSeg ("note_fk")] }

/-- The table metadata produced for `c2Decl`. -/
def c2Meta : TableMetadata :=
  { table_name := "order", struct_name := "Order"
    primary_key := Option.some ("id")
    columns := [c2IdCol, c2CustCol, c2NoteCol]
    insert_struct := Option.none }

/-- C5 counterexample input: `struct Note { title: String, body: String }`. -/
def c5NoteDecl : DeriveInput :=
  { ident := "Note", attrs := []
    fields := [plainField ("title") ("String"), plainField ("body") ("String")] }

/-- C10 witness input: a tuple-style field with no identifier. -/
def c10TupleField : FieldDecl :=
  { ident := Option.none, ty := plainTy ("i32"), attrs := [] }

/-- C1 (code bug evidence): on a declaration whose second field is a join
wrapper with no join directive, the table pass does not surface the column
failure as its Result error value: the unwrap on metadata.rs line 49 turns the
JoinMissingDirective error into a panic. -/
theorem c1_column_failure_panics_in_table_pass :
  TableMetadata.try_from c1OrderDecl =
    Outcome.panic ("called Result::unwrap() on an Err value: Column customer is a Join. You must specify one of: many_to_one_key, many_to_many_table_name, or one_to_many_foreign_key") :=
  rfl

/-- C2 counterexample: a successfully produced table whose join-typed column
has two join fields set and whose non-join column has one join field set,
refuting both halves of the claimed invariant. -/
theorem c2_join_fields_exactly_one_cex :
  TableMetadata.try_from c2Decl = Outcome.ok c2Meta ∧
    ty_is_join c2CustCol.column_type = true ∧ countJoinFields c2CustCol = 2 ∧
    ty_is_join c2NoteCol.column_type = false ∧ countJoinFields c2NoteCol = 1 :=
  ⟨rfl, rfl, rfl, rfl, rfl⟩

/-- C5 counterexample: the missing-primary-key failure message names the
attribute as ormlite(primary_key), not the bare primary_key the claim
states. -/
theorem c5_missing_pk_message_cex :
  TableMetadata.try_from c5NoteDecl =
      Outcome.err ("No column marked with #[ormlite(primary_key)], and no column named id, uuid, note_id, or note_uuid") ∧
    ("No column marked with #[ormlite(primary_key)], and no column named id, uuid, note_id, or note_uuid") ≠
      ("No column marked with #[primary_key], and no column named id, uuid, note_id, or note_uuid") :=
  ⟨rfl, by decide⟩

/-- C10: the column assembler panics (expect on the missing identifier) on a
field declaration with no identifier, rather than returning a validation
error value. -/
theorem c10_unnamed_field_panics :
  ∀ f : FieldDecl, f.ident = Option.none →
    ColumnMetadata.try_from f = Outcome.panic ("No ident on field") := by
  intro f h
  unfold ColumnMetadata.try_from
  rw [h]

/-- Witness for C10 at a concrete tuple-style field. -/
theorem c10_unnamed_field_panics_witness :
  ColumnMetadata.try_from c10TupleField = Outcome.panic ("No ident on field") :=
  c10_unnamed_field_panics c10TupleField rfl

/-! Helper lemmas about the column assembler. -/

lemma applyFlags_fields (c : ColumnMetadata) (a : ColumnAttributes) :
    (applyFlags c a).column_name = c.column_name ∧
    (applyFlags c a).column_type = c.column_type ∧
    (applyFlags c a).many_to_one_key = c.many_to_one_key ∧
    (applyFlags c a).many_to_many_table_name = c.many_to_many_table_name ∧
    (applyFlags c a).one_to_many_foreign_key = c.one_to_many_foreign_key := by
  cases hp : a.primary_key <;> cases hd : a.default <;> simp [applyFlags, hp, hd]

lemma applyFlags_flags (c : ColumnMetadata) (a : ColumnAttributes) :
    (a.primary_key = true →
      (applyFlags c a).marked_primary_key = true ∧
        (applyFlags c a).has_database_default = true) ∧
    (c.marked_primary_key = true → (applyFlags c a).marked_primary_key = true) ∧
    (c.has_database_default = true → (applyFlags c a).has_database_default = true) ∧
    ((applyFlags c a).marked_primary_key = true →
      c.marked_primary_key = true ∨ a.primary_key = true) := by
  cases hp : a.primary_key <;> cases hd : a.default <;> simp [applyFlags, hp, hd]

lemma applyFlags_join (c : ColumnMetadata) (a : ColumnAttributes) :
    hasJoinField (applyFlags c a) = hasJoinField c := by
  cases hp : a.primary_key <;> cases hd : a.default <;>
    simp [applyFlags, hasJoinField, hp, hd]

lemma applyTail_fields (c : ColumnMetadata) (hj : Bool) (a : ColumnAttributes) :
    (applyTail c hj a).1.column_name = c.column_name ∧
    (applyTail c hj a).1.column_type = c.column_type ∧
    (applyTail c hj a).1.marked_primary_key = c.marked_primary_key ∧
    (applyTail c hj a).1.has_database_default = c.has_database_default ∧
    (applyTail c hj a).1.many_to_one_key = c.many_to_one_key := by
  cases hm : a.many_to_many_table_name <;> cases ho : a.one_to_many_foreign_key <;>
    simp [applyTail, hm, ho]

lemma applyTail_join (c : ColumnMetadata) (hj : Bool) (a : ColumnAttributes) :
    (hasJoinField c = true → hasJoinField (applyTail c hj a).1 = true) ∧
    ((applyTail c hj a).2 = true → hj = true ∨ hasJoinField (applyTail c hj a).1 = true) := by
  cases hm : a.many_to_many_table_name <;> cases ho : a.one_to_many_foreign_key <;>
    simp [applyTail, hasJoinField, hm, ho] <;> tauto

lemma applyTail_noJoin (c : ColumnMetadata) (hj : Bool) (a : ColumnAttributes)
    (hm : a.many_to_many_table_name = Option.none)
    (ho : a.one_to_many_foreign_key = Option.none) :
    applyTail c hj a = (c, hj) := by
  simp [applyTail, hm, ho]

lemma applyAttr_noJoin (c : ColumnMetadata) (hj : Bool) (a : ColumnAttributes)
    (h : noJoinDirective a = true) :
    applyAttr c hj a = Outcome.ok (applyFlags c a, hj) := by
  simp only [noJoinDirective, Bool.and_eq_true, Option.isNone_iff_eq_none] at h
  obtain ⟨⟨h1, h2⟩, h3⟩ := h
  simp [applyAttr, h1, applyTail_noJoin _ _ _ h2 h3]

lemma applyAttr_ok_spec (c c' : ColumnMetadata) (hj hj' : Bool) (a : ColumnAttributes)
    (h : applyAttr c hj a = Outcome.ok (c', hj')) :
    c'.column_name = c.column_name ∧
    c'.column_type = c.column_type ∧
    (a.primary_key = true → c'.marked_primary_key = true ∧ c'.has_database_default = true) ∧
    (c.marked_primary_key = true → c'.marked_primary_key = true) ∧
    (c.has_database_default = true → c'.has_database_default = true) ∧
    (c'.marked_primary_key = true → c.marked_primary_key = true ∨ a.primary_key = true) ∧
    (hasJoinField c = true → hasJoinField c' = true) ∧
    (hj' = true → hj = true ∨ hasJoinField c' = true) := by
  obtain ⟨fn, ft, fm1, fm2, fm3⟩ := applyFlags_fields c a
  obtain ⟨ff1, ff2, ff3, ff4⟩ := applyFlags_flags c a
  cases hmo : a.many_to_one_key with
  | none =>
    simp only [applyAttr, hmo] at h
    have h' : applyTail (applyFlags c a) hj a = (c', hj') := by
      injection h
    have hc' : c' = (applyTail (applyFlags c a) hj a).1 := by rw [h']
    have hh' : hj' = (applyTail (applyFlags c a) hj a).2 := by rw [h']
    subst hc'
    subst hh'
    obtain ⟨tn, tt, tm, td, tmo⟩ := applyTail_fields (applyFlags c a) hj a
    obtain ⟨tj1, tj2⟩ := applyTail_join (applyFlags c a) hj a
    refine ⟨by rw [tn, fn], by rw [tt, ft], ?_, ?_, ?_, ?_, ?_, ?_⟩
    · intro hp
      obtain ⟨h1, h2⟩ := ff1 hp
      exact ⟨by rw [tm]; exact h1, by rw [td]; exact h2⟩
    · intro hp; rw [tm]; exact ff2 hp
    · intro hp; rw [td]; exact ff3 hp
    · intro hp; rw [tm] at hp; exact ff4 hp
    · intro hp
      exact tj1 (by rw [applyFlags_join]; exact hp)
    · exact tj2
  | some v =>
    cases hv : v.getLast? with
    | none => simp [applyAttr, hmo, hv] at h
    | some seg =>
      simp only [applyAttr, hmo, hv] at h
      set cmid := { applyFlags c a with many_to_one_key := Option.some seg.ident }
        with hcmid
      have h' : applyTail cmid true a = (c', hj') := by
        injection h
      have hc' : c' = (applyTail cmid true a).1 := by rw [h']
      have hh' : hj' = (applyTail cmid true a).2 := by rw [h']
      subst hc'
      subst hh'
      obtain ⟨tn, tt, tm, td, tmo⟩ := applyTail_fields cmid true a
      obtain ⟨tj1, tj2⟩ := applyTail_join cmid true a
      have hjmid : hasJoinField cmid = true := by
        simp [hcmid, hasJoinField]
      refine ⟨by rw [tn, hcmid]; exact fn, by rw [tt, hcmid]; exact ft,
        ?_, ?_, ?_, ?_, ?_, ?_⟩
      · intro hp
        obtain ⟨h1, h2⟩ := ff1 hp
        exact ⟨by rw [tm, hcmid]; exact h1, by rw [td, hcmid]; exact h2⟩
      · intro hp; rw [tm, hcmid]; exact ff2 hp
      · intro hp; rw [td, hcmid]; exact ff3 hp
      · intro hp; rw [tm, hcmid] at hp; exact ff4 hp
      · intro hp; exact tj1 hjmid
      · intro hp; exact Or.inr (tj1 hjmid)

lemma processAttrs_ok_spec (l : List ColumnAttributes) :
    ∀ c hj c' hj', processAttrs c hj l = Outcome.ok (c', hj') →
    c'.column_name = c.column_name ∧
    c'.column_type = c.column_type ∧
    (l.any (fun a => a.primary_key) = true →
      c'.marked_primary_key = true ∧ c'.has_database_default = true) ∧
    (c.marked_primary_key = true → c'.marked_primary_key = true) ∧
    (c.has_database_default = true → c'.has_database_default = true) ∧
    (c'.marked_primary_key = true →
      c.marked_primary_key = true ∨ l.any (fun a => a.primary_key) = true) ∧
    (hasJoinField c = true → hasJoinField c' = true) ∧
    (hj' = true → hj = true ∨ hasJoinField c' = true) := by
  induction l with
  | nil =>
    intro c hj c' hj' h
    simp only [processAttrs, Outcome.ok.injEq, Prod.mk.injEq] at h
    obtain ⟨rfl, rfl⟩ := h
    simp
    tauto
  | cons a rest ih =>
    intro c hj c' hj' h
    simp only [processAttrs] at h
    cases ha : applyAttr c hj a with
    | ok p =>
      rw [ha] at h
      obtain ⟨n1, t1, pk1, m1, d1, r1, j1, q1⟩ :=
        applyAttr_ok_spec c p.1 hj p.2 a (by rw [ha])
      obtain ⟨n2, t2, pk2, m2, d2, r2, j2, q2⟩ := ih p.1 p.2 c' hj' h
      refine ⟨by rw [n2, n1], by rw [t2, t1], ?_, ?_, ?_, ?_, ?_, ?_⟩
      · intro hany
        rw [List.any_cons, Bool.or_eq_true] at hany
        rcases hany with hp | hr
        · obtain ⟨hm, hd⟩ := pk1 hp
          exact ⟨m2 hm, d2 hd⟩
        · exact pk2 hr
      · intro hm; exact m2 (m1 hm)
      · intro hd; exact d2 (d1 hd)
      · intro hm
        rw [List.any_cons, Bool.or_eq_true]
        rcases r2 hm with hm' | hr
        · rcases r1 hm' with hc | hp
          · exact Or.inl hc
          · exact Or.inr (Or.inl hp)
        · exact Or.inr (Or.inr hr)
      · intro hjf; exact j2 (j1 hjf)
      · intro hh
        rcases q2 hh with hp2 | hjf
        · rcases q1 hp2 with hh' | hjf'
          · exact Or.inl hh'
          · exact Or.inr (j2 hjf')
        · exact Or.inr hjf
    | err e => rw [ha] at h; cases h
    | panic e => rw [ha] at h; cases h

lemma processAttrs_noJoin (l : List ColumnAttributes) :
    ∀ c hj, l.all noJoinDirective = true →
      ∃ c', processAttrs c hj l = Outcome.ok (c', hj) := by
  induction l with
  | nil =>
    intro c hj _
    exact ⟨c, rfl⟩
  | cons a rest ih =>
    intro c hj h
    rw [List.all_cons, Bool.and_eq_true] at h
    obtain ⟨c', hc'⟩ := ih (applyFlags c a) hj h.2
    refine ⟨c', ?_⟩
    simp only [processAttrs, applyAttr_noJoin c hj a h.1]
    exact hc'

lemma columnTryFrom_ok (f : FieldDecl) (c : ColumnMetadata)
    (h : ColumnMetadata.try_from f = Outcome.ok c) :
    f.ident = Option.some c.column_name ∧
    c.column_type = f.ty ∧
    (f.attrs.any (fun a => a.primary_key) = true →
      c.marked_primary_key = true ∧ c.has_database_default = true) ∧
    (c.marked_primary_key = true → c.has_database_default = true) ∧
    (ty_is_join c.column_type = true → hasJoinField c = true) := by
  unfold ColumnMetadata.try_from at h
  cases hid : f.ident with
  | none => simp only [hid] at h; cases h
  | some i =>
    simp only [hid] at h
    cases hp : processAttrs (initColumn i f.ty) false f.attrs with
    | ok q =>
      obtain ⟨cm, hj⟩ := q
      simp only [hp] at h
      by_cases hcond : (ty_is_join f.ty && !hj) = true
      · rw [if_pos hcond] at h
        cases h
      · rw [if_neg hcond] at h
        have hc : cm = c := by injection h
        subst hc
        obtain ⟨n1, t1, pk1, m1, d1, r1, j1, q1⟩ :=
          processAttrs_ok_spec f.attrs (initColumn i f.ty) false cm hj hp
        have hname : cm.column_name = i := by
          rw [n1]; rfl
        have htype : cm.column_type = f.ty := by
          rw [t1]; rfl
        refine ⟨by rw [hname], htype, pk1, ?_, ?_⟩
        · intro hm
          rcases r1 hm with hfalse | hany
          · simp [initColumn] at hfalse
          · exact (pk1 hany).2
        · intro hjoin
          rw [htype] at hjoin
          rw [Bool.and_eq_true, Bool.not_eq_true'] at hcond
          have hhj : hj = true := by
            by_contra hne
            exact hcond ⟨hjoin, Bool.not_eq_true hj ▸ (by simpa using hne)⟩
          rcases q1 hhj with hfalse | hjf
          · cases hfalse
          · exact hjf
    | err e => simp only [hp] at h; cases h
    | panic e => simp only [hp] at h; cases h

lemma collectColumns_mem (fs : List FieldDecl) :
    ∀ cols, collectColumns fs = Outcome.ok cols →
    ∀ c ∈ cols, ∃ f, f ∈ fs ∧ ColumnMetadata.try_from f = Outcome.ok c := by
  induction fs with
  | nil =>
    intro cols h
    simp only [collectColumns, Outcome.ok.injEq] at h
    subst h
    intro c hc
    cases hc
  | cons f rest ih =>
    intro cols h
    simp only [collectColumns] at h
    cases h1 : ColumnMetadata.try_from f with
    | ok c0 =>
      rw [h1] at h
      cases h2 : collectColumns rest with
      | ok cs =>
        rw [h2] at h
        have hcols : c0 :: cs = cols := by injection h
        subst hcols
        intro c hc
        rcases List.mem_cons.mp hc with rfl | hmem
        · exact ⟨f, List.mem_cons_self f rest, h1⟩
        · obtain ⟨f', hf', ht⟩ := ih cs h2 c hmem
          exact ⟨f', List.mem_cons_of_mem f hf', ht⟩
      | err e => rw [h2] at h; cases h
      | panic e => rw [h2] at h; cases h
    | err e => rw [h1] at h; cases h
    | panic e => rw [h1] at h; cases h

/-! Helper lemmas about primary-key inference and the table builder. -/

lemma findMarkedPk_eq (cols : List ColumnMetadata) :
    findMarkedPk cols =
      (cols.find? (fun c => c.marked_primary_key)).map (fun c => c.column_name) := by
  induction cols with
  | nil => rfl
  | cons c rest ih =>
    by_cases hm : c.marked_primary_key = true
    · simp [findMarkedPk, List.filter_cons, hm]
    · have hm' : c.marked_primary_key = false := by
        simpa using hm
      simp only [findMarkedPk, List.filter_cons, hm', Bool.false_eq_true, if_false,
        List.find?_cons, hm']
      exact ih

lemma inferPk_none (t : String) (cols : List ColumnMetadata)
    (h : cols.all (fun c => !((pkCandidates t).contains c.column_name)) = true) :
    inferPk t cols = (Option.none, cols) := by
  induction cols with
  | nil => rfl
  | cons c rest ih =>
    rw [List.all_cons, Bool.and_eq_true] at h
    have hnot : c.column_name ∉ pkCandidates t := by
      simpa using h.1
    simp [inferPk, hnot, ih h.2]

lemma inferPk_fst (t : String) (cols : List ColumnMetadata) :
    (inferPk t cols).1 =
      (cols.find? (fun c => (pkCandidates t).contains c.column_name)).map
        (fun c => c.column_name) := by
  induction cols with
  | nil => rfl
  | cons c rest ih =>
    by_cases hc : c.column_name ∈ pkCandidates t
    · simp [inferPk, hc]
    · simp [inferPk, hc, ih]

lemma inferPk_mem (t : String) (cols : List ColumnMetadata) :
    ∀ c' ∈ (inferPk t cols).2, ∃ c, c ∈ cols ∧
      (c' = c ∨ c' = { c with has_database_default := true }) := by
  induction cols with
  | nil =>
    intro c' hc'
    simp [inferPk] at hc'
  | cons c rest ih =>
    intro c' hc'
    by_cases hc : c.column_name ∈ pkCandidates t
    · rw [show inferPk t (c :: rest) =
          (Option.some c.column_name, { c with has_database_default := true } :: rest) by
        simp [inferPk, hc]] at hc'
      rcases List.mem_cons.mp hc' with rfl | hmem
      · exact ⟨c, List.mem_cons_self c rest, Or.inr rfl⟩
      · exact ⟨c', List.mem_cons_of_mem c hmem, Or.inl rfl⟩
    · rw [show inferPk t (c :: rest) =
          ((inferPk t rest).1, c :: (inferPk t rest).2) by simp [inferPk, hc]] at hc'
      rcases List.mem_cons.mp hc' with rfl | hmem
      · exact ⟨c', List.mem_cons_self c' rest, Or.inl rfl⟩
      · obtain ⟨c0, hc0, hor⟩ := ih c' hmem
        exact ⟨c0, List.mem_cons_of_mem c hc0, hor⟩

lemma inferPk_some (t : String) (cols : List ColumnMetadata) :
    ∀ pk, (inferPk t cols).1 = Option.some pk →
      ∃ c', c' ∈ (inferPk t cols).2 ∧ c'.column_name = pk ∧
        c'.has_database_default = true := by
  induction cols with
  | nil => intro pk h; cases h
  | cons c rest ih =>
    intro pk h
    by_cases hc : c.column_name ∈ pkCandidates t
    · have hred : inferPk t (c :: rest) =
          (Option.some c.column_name, { c with has_database_default := true } :: rest) := by
        simp [inferPk, hc]
      rw [hred] at h
      refine ⟨{ c with has_database_default := true }, ?_, ?_, rfl⟩
      · rw [hred]
        exact List.mem_cons_self _ rest
      · have : c.column_name = pk := by
          simpa using h
        simpa using this
    · have hred : inferPk t (c :: rest) =
          ((inferPk t rest).1, c :: (inferPk t rest).2) := by
        simp [inferPk, hc]
      rw [hred] at h
      obtain ⟨c', hmem, hname, hdef⟩ := ih pk h
      refine ⟨c', ?_, hname, hdef⟩
      rw [hred]
      exact List.mem_cons_of_mem c hmem

lemma applyModelAttr_struct_name (b : TableMetadataBuilder) (a : ModelAttributes) :
    (applyModelAttr b a).struct_name = b.struct_name := by
  cases ht : a.table <;> cases hi : a.Insertable <;> simp [applyModelAttr, ht, hi]

lemma applyModelAttr_insert (b : TableMetadataBuilder) (a : ModelAttributes)
    (h : b.insert_struct.isSome = true) :
    ((applyModelAttr b a).insert_struct).isSome = true := by
  cases ht : a.table <;> cases hi : a.Insertable <;> simp [applyModelAttr, ht, hi, h]

lemma applyModelAttr_table (b : TableMetadataBuilder) (a : ModelAttributes) :
    (applyModelAttr b a).table_name =
      match a.table with
      | Option.some v => Option.some v
      | Option.none => b.table_name := by
  cases ht : a.table <;> cases hi : a.Insertable <;> simp [applyModelAttr, ht, hi]

lemma foldl_struct_name (l : List ModelAttributes) :
    ∀ b : TableMetadataBuilder, (l.foldl applyModelAttr b).struct_name = b.struct_name := by
  induction l with
  | nil => intro b; rfl
  | cons a rest ih =>
    intro b
    rw [List.foldl_cons, ih, applyModelAttr_struct_name]

lemma foldl_insert (l : List ModelAttributes) :
    ∀ b : TableMetadataBuilder, b.insert_struct.isSome = true →
      ((l.foldl applyModelAttr b).insert_struct).isSome = true := by
  induction l with
  | nil => intro b h; exact h
  | cons a rest ih =>
    intro b h
    rw [List.foldl_cons]
    exact ih (applyModelAttr b a) (applyModelAttr_insert b a h)

lemma foldl_table_name (l : List ModelAttributes) :
    ∀ b : TableMetadataBuilder, (l.foldl applyModelAttr b).table_name =
      match (l.filterMap ModelAttributes.table).getLast? with
      | Option.some v => Option.some v
      | Option.none => b.table_name := by
  induction l with
  | nil => intro b; rfl
  | cons a rest ih =>
    intro b
    rw [List.foldl_cons, ih, List.filterMap_cons]
    cases ht : a.table with
    | none =>
      rw [applyModelAttr_table]
      simp [ht]
    | some v =>
      rw [applyModelAttr_table]
      simp only [ht]
      cases hfm : rest.filterMap ModelAttributes.table with
      | nil => simp
      | cons x xs =>
        rw [List.getLast?_cons_cons]
        cases hg : (x :: xs).getLast? with
        | none => simp [List.getLast?_eq_none_iff] at hg
        | some w => simp

lemma builtBuilder_struct (ast : DeriveInput) :
    (builtBuilder ast).struct_name = Option.some ast.ident := by
  rw [builtBuilder, foldl_struct_name]
  rfl

lemma builtBuilder_insert (ast : DeriveInput) :
    ∃ ins, (builtBuilder ast).insert_struct = Option.some ins := by
  have h : ((builtBuilder ast).insert_struct).isSome = true := by
    rw [builtBuilder]
    exact foldl_insert ast.attrs (initialBuilder ast) rfl
  exact Option.isSome_iff_exists.mp h

lemma builtBuilder_table (ast : DeriveInput) :
    (builtBuilder ast).table_name = tableDirective ast := by
  rw [builtBuilder, foldl_table_name, tableDirective]
  cases h : (ast.attrs.filterMap ModelAttributes.table).getLast? with
  | none => rfl
  | some v => rfl

lemma complete_ok_inv (b : TableMetadataBuilder) (ast : DeriveInput)
    (meta : TableMetadata)
    (h : b.complete_with_struct_body ast = Outcome.ok meta) :
    ∃ cols, collectColumns ast.fields = Outcome.ok cols ∧
      meta.table_name = b.table_name.getD (to_snake_case ast.ident) ∧
      ((findMarkedPk cols).isSome = true ∧ meta.primary_key = findMarkedPk cols ∧
          meta.columns = cols ∨
        findMarkedPk cols = Option.none ∧
          meta.primary_key = (inferPk meta.table_name cols).1 ∧
          meta.columns = (inferPk meta.table_name cols).2) := by
  simp only [TableMetadataBuilder.complete_with_struct_body] at h
  cases hc : collectColumns ast.fields with
  | ok cols =>
    simp only [hc] at h
    cases hs : b.struct_name with
    | none => simp only [hs] at h; cases h
    | some sn =>
      cases hi : b.insert_struct with
      | none => simp only [hs, hi] at h; cases h
      | some ins =>
        simp only [hs, hi, Outcome.ok.injEq] at h
        subst h
        refine ⟨cols, rfl, rfl, ?_⟩
        by_cases hm : (findMarkedPk cols).isSome = true
        · left
          refine ⟨hm, ?_, ?_⟩
          · simp [hm]
          · simp [hm]
        · right
          have hm' : findMarkedPk cols = Option.none :=
            Option.not_isSome_iff_eq_none.mp hm
          refine ⟨hm', ?_, ?_⟩
          · simp [hm]
          · simp [hm]
  | err e => simp only [hc] at h; cases h
  | panic e => simp only [hc] at h; cases h

lemma tryFrom_ok_inv (ast : DeriveInput) (meta : TableMetadata)
    (h : TableMetadata.try_from ast = Outcome.ok meta) :
    (builtBuilder ast).complete_with_struct_body ast = Outcome.ok meta := by
  simp only [TableMetadata.try_from, TableMetadata.builder_from_struct_attributes] at h
  cases hc : (builtBuilder ast).complete_with_struct_body ast with
  | ok m =>
    simp only [hc] at h
    cases hpk : m.primary_key with
    | none => simp only [hpk] at h; cases h
    | some pk =>
      simp only [hpk, Outcome.ok.injEq] at h
      subst h
      rfl
  | err e => simp only [hc] at h; cases h
  | panic e => simp only [hc] at h; cases h

/-- C2 (amended): in every successfully produced table, every column whose
type is the join wrapper has at least one of the three join fields set. -/
theorem c2_join_columns_have_directive : ∀ (ast : DeriveInput) (meta : TableMetadata),
    TableMetadata.try_from ast = Outcome.ok meta →
    ∀ c ∈ meta.columns, ty_is_join c.column_type = true → hasJoinField c = true := by
  intro ast meta h c hc hj
  obtain ⟨cols, hcols, htn, hdisj⟩ := complete_ok_inv _ ast meta (tryFrom_ok_inv ast meta h)
  have hprop : ∀ c0 ∈ cols, ty_is_join c0.column_type = true → hasJoinField c0 = true := by
    intro c0 hc0 hj0
    obtain ⟨f, hf, ht⟩ := collectColumns_mem ast.fields cols hcols c0 hc0
    exact (columnTryFrom_ok f c0 ht).2.2.2.2 hj0
  rcases hdisj with ⟨hs, hp, hcolseq⟩ | ⟨hs, hp, hcolseq⟩
  · rw [hcolseq] at hc
    exact hprop c hc hj
  · rw [hcolseq] at hc
    obtain ⟨c0, hc0, hor⟩ := inferPk_mem meta.table_name cols c hc
    rcases hor with he | he
    · rw [he] at hj ⊢
      exact hprop c0 hc0 hj
    · rw [he] at hj ⊢
      exact hprop c0 hc0 hj

/-- Witness for C2 (amended) at the concrete `c2Decl` table. -/
theorem c2_join_columns_have_directive_witness : hasJoinField c2CustCol = true :=
  c2_join_columns_have_directive c2Decl c2Meta rfl c2CustCol
    (List.mem_cons_of_mem c2IdCol (List.mem_cons_self c2CustCol [c2NoteCol])) rfl

/-- C4: a join-typed field with a name and no join directive in any of its
attribute groups fails column assembly with exactly the JoinMissingDirective
message. -/
theorem c4_join_missing_directive_error : ∀ (f : FieldDecl) (i : String),
    f.ident = Option.some i → ty_is_join f.ty = true →
    f.attrs.all noJoinDirective = true →
    ColumnMetadata.try_from f =
      Outcome.err ("Column " ++ i ++ " is a Join. You must specify one of: many_to_one_key, many_to_many_table_name, or one_to_many_foreign_key") := by
  intro f i hid hjoin hall
  obtain ⟨c', hc'⟩ := processAttrs_noJoin f.attrs (initColumn i f.ty) false hall
  simp [ColumnMetadata.try_from, hid, hc', hjoin]

/-- C4 witness input: `customer: Join<Customer>` with no attributes. -/
def c4JoinField : FieldDecl :=
  { ident := Option.some ("customer"), ty := joinTy ("Customer"), attrs := [] }

/-- Witness for C4 at a concrete join field. -/
theorem c4_join_missing_directive_error_witness :
    ColumnMetadata.try_from c4JoinField =
      Outcome.err ("Column customer is a Join. You must specify one of: many_to_one_key, many_to_many_table_name, or one_to_many_foreign_key") :=
  c4_join_missing_directive_error c4JoinField ("customer") rfl rfl rfl

/-- C6: in every successful extraction, the table name is the last `table`
directive value when one is present, and the snake_case conversion of the
type identifier otherwise. -/
theorem c6_table_name_directive_or_snake : ∀ (ast : DeriveInput) (meta : TableMetadata),
    TableMetadata.try_from ast = Outcome.ok meta →
    meta.table_name = (tableDirective ast).getD (to_snake_case ast.ident) := by
  intro ast meta h
  obtain ⟨cols, hcols, htn, hdisj⟩ := complete_ok_inv _ ast meta (tryFrom_ok_inv ast meta h)
  rw [htn, builtBuilder_table]

/-- C6 witness input: `struct UserAccount { id: i32 }`, no directives. -/
def uaDecl : DeriveInput :=
  { ident := "UserAccount", attrs := [], fields := [plainField ("id") ("i32")] }

/-- The `id` column produced for `uaDecl`. -/
def uaIdCol : ColumnMetadata :=
  { column_name := "id", column_type := plainTy ("i32")
    marked_primary_key := false, has_database_default := true
    identifier := "id"
    many_to_one_key := Option.none
    many_to_many_table_name := Option.none
    one_to_many_foreign_key := Option.none }

/-- The table metadata produced for `uaDecl`. -/
def uaMeta : TableMetadata :=
  { table_name := "user_account", struct_name := "UserAccount"
    primary_key := Option.some ("id")
    columns := [uaIdCol]
    insert_struct := Option.none }

/-- Witness for C6: `UserAccount` becomes table `user_account`. -/
theorem c6_table_name_directive_or_snake_witness :
    uaMeta.table_name = (tableDirective uaDecl).getD (to_snake_case uaDecl.ident) :=
  c6_table_name_directive_or_snake uaDecl uaMeta rfl

/-- C3: the published primary key is the first marked column in declaration
order when any column is marked, and otherwise the first column (declaration
order) named id, uuid, table_name + _id or table_name + _uuid, where the
table name is the possibly-overridden one; the first candidate always wins. -/
theorem c3_primary_key_inference : ∀ (ast : DeriveInput) (meta : TableMetadata)
    (cols : List ColumnMetadata),
    collectColumns ast.fields = Outcome.ok cols →
    TableMetadata.try_from ast = Outcome.ok meta →
    meta.table_name = (tableDirective ast).getD (to_snake_case ast.ident) ∧
    meta.primary_key =
      (match cols.find? (fun c => c.marked_primary_key) with
       | Option.some c => Option.some c.column_name
       | Option.none =>
         (cols.find? (fun c => (pkCandidates meta.table_name).contains c.column_name)).map
           (fun c => c.column_name)) := by
  intro ast meta cols hcols h
  obtain ⟨cols', hcols', htn, hdisj⟩ := complete_ok_inv _ ast meta (tryFrom_ok_inv ast meta h)
  rw [hcols] at hcols'
  have hceq : cols' = cols := by
    injection hcols' with h
    exact h.symm
  subst hceq
  refine ⟨by rw [htn, builtBuilder_table], ?_⟩
  rcases hdisj with ⟨hsome, hpk, hcolseq⟩ | ⟨hnone, hpk, hcolseq⟩
  · rw [hpk, findMarkedPk_eq]
    cases hf : cols'.find? (fun c => c.marked_primary_key) with
    | some c0 => simp
    | none =>
      rw [findMarkedPk_eq, hf] at hsome
      cases hsome
  · rw [findMarkedPk_eq] at hnone
    have hfm : cols'.find? (fun c => c.marked_primary_key) = Option.none := by
      cases hf : cols'.find? (fun c => c.marked_primary_key) with
      | none => rfl
      | some c0 => rw [hf] at hnone; cases hnone
    rw [hpk, inferPk_fst, hfm]

/-- C3 witness input: table override plus Insertable; the candidate column
patterns come from the overridden table name `customers`, so the matching
field is `customers_id` (the original identifier `Customer` plays no part). -/
def c3Decl : DeriveInput :=
  { ident := "Customer"
    attrs := [{ table := Option.some ("customers"), Insertable := Option.some ("NewCustomer") }]
    fields := [plainField ("customers_id") ("i32"), plainField ("email") ("String")] }

/-- The columns produced by the field pass for `c3Decl`, before primary-key
inference. -/
def c3Cols : List ColumnMetadata :=
  [initColumn ("customers_id") (plainTy ("i32")),
   initColumn ("email") (plainTy ("String"))]

/-- The table metadata produced for `c3Decl`: overridden table name used for
the candidate patterns. -/
def c3Meta : TableMetadata :=
  { table_name := "customers", struct_name := "Customer"
    primary_key := Option.some ("customers_id")
    columns := [{ initColumn ("customers_id") (plainTy ("i32")) with
        has_database_default := true },
      initColumn ("email") (plainTy ("String"))]
    insert_struct := Option.some ("NewCustomer") }

/-- Witness for C3 at `c3Decl`: inference against the overridden table name
selects `customer_id`. -/
theorem c3_primary_key_inference_witness :
    c3Meta.table_name = (tableDirective c3Decl).getD (to_snake_case c3Decl.ident) ∧
    c3Meta.primary_key =
      (match c3Cols.find? (fun c => c.marked_primary_key) with
       | Option.some c => Option.some c.column_name
       | Option.none =>
         (c3Cols.find? (fun c => (pkCandidates c3Meta.table_name).contains c.column_name)).map
           (fun c => c.column_name)) :=
  c3_primary_key_inference c3Decl c3Meta c3Cols rfl rfl

/-- C5 (amended): a record type with no marked column and no candidate-named
column fails with the missing-primary-key message, which names the attribute
as ormlite(primary_key). -/
theorem c5_missing_pk_error : ∀ (ast : DeriveInput) (cols : List ColumnMetadata) (t : String),
    collectColumns ast.fields = Outcome.ok cols →
    (tableDirective ast).getD (to_snake_case ast.ident) = t →
    cols.all (fun c => !c.marked_primary_key) = true →
    cols.all (fun c => !((pkCandidates t).contains c.column_name)) = true →
    TableMetadata.try_from ast =
      Outcome.err ("No column marked with #[ormlite(primary_key)], and no column named id, uuid, " ++ t ++ "_id, or " ++ t ++ "_uuid") := by
  intro ast cols t hcols ht hnm hnc
  have hfm : findMarkedPk cols = Option.none := by
    rw [findMarkedPk_eq]
    have hfind : cols.find? (fun c => c.marked_primary_key) = Option.none := by
      rw [List.find?_eq_none]
      intro x hx
      have hm := List.all_eq_true.mp hnm x hx
      simp at hm
      simp [hm]
    rw [hfind]
    rfl
  have hinf := inferPk_none t cols hnc
  have htb : (builtBuilder ast).table_name.getD (to_snake_case ast.ident) = t := by
    rw [builtBuilder_table]
    exact ht
  obtain ⟨ins, hins⟩ := builtBuilder_insert ast
  have hcomp : (builtBuilder ast).complete_with_struct_body ast =
      Outcome.ok
        { table_name := t
          struct_name := ast.ident
          primary_key := Option.none
          columns := cols
          insert_struct := ins } := by
    simp only [TableMetadataBuilder.complete_with_struct_body, hcols,
      builtBuilder_struct ast, hins, htb, hfm, hinf]
    simp
  simp only [TableMetadata.try_from, TableMetadata.builder_from_struct_attributes, hcomp]

/-- Witness for C5 (amended) at `struct Note { title, body }`. -/
theorem c5_missing_pk_error_witness :
    TableMetadata.try_from c5NoteDecl =
      Outcome.err ("No column marked with #[ormlite(primary_key)], and no column named id, uuid, note_id, or note_uuid") :=
  c5_missing_pk_error c5NoteDecl
    [initColumn ("title") (plainTy ("String")), initColumn ("body") (plainTy ("String"))]
    ("note") rfl rfl rfl rfl

/-- C7: the join classifier holds exactly of path types whose final segment
is named Join: the final segment's generic arguments and all leading
segments are irrelevant, the empty path is not a join, and non-path types
are never joins. -/
theorem c7_is_join_characterization :
    (∀ (segs : List PathSegment) (i : String) (a : PathArguments),
      ty_is_join (Ty.path (segs ++ [PathSegment.mk i a])) = (i == "Join")) ∧
    ty_is_join (Ty.path []) = false ∧
    ty_is_join Ty.other = false := by
  refine ⟨?_, rfl, rfl⟩
  intro segs i a
  simp [ty_is_join, List.getLast?_concat, PathSegment.ident]

/-- C8: the joined-entity extractor returns the identifier of the last
segment of the last (path-shaped) generic argument of the last path segment
of a join type, and yields none for non-joins and on every shape mismatch
(no arguments, parenthesized instead of angle-bracketed arguments, empty
angle-bracketed argument list, last argument not a type, last argument not
a path type); it is total and never errors. -/
theorem c8_joined_struct_characterization : ∀ (c : ColumnMetadata)
    (segs segs2 : List PathSegment) (gas : List GenericArg) (j : String)
    (a2 : PathArguments),
    (c.column_type = Ty.path (segs ++ [PathSegment.mk ("Join")
        (PathArguments.angleBracketed (gas ++ [GenericArg.type
          (Ty.path (segs2 ++ [PathSegment.mk j a2]))]))]) →
      c.joined_struct = Option.some j) ∧
    (ty_is_join c.column_type = false → c.joined_struct = Option.none) ∧
    (c.column_type = Ty.path (segs ++ [PathSegment.mk ("Join") PathArguments.noArgs]) →
      c.joined_struct = Option.none) ∧
    (c.column_type = Ty.path (segs ++ [PathSegment.mk ("Join")
        (PathArguments.angleBracketed (gas ++ [GenericArg.otherArg]))]) →
      c.joined_struct = Option.none) ∧
    (c.column_type = Ty.path (segs ++ [PathSegment.mk ("Join")
        (PathArguments.angleBracketed (gas ++ [GenericArg.type Ty.other]))]) →
      c.joined_struct = Option.none) ∧
    (c.column_type = Ty.path (segs ++ [PathSegment.mk ("Join")
        (PathArguments.angleBracketed [])]) →
      c.joined_struct = Option.none) ∧
    (c.column_type = Ty.path (segs ++ [PathSegment.mk ("Join")
        PathArguments.parenthesized]) →
      c.joined_struct = Option.none) := by
  intro c segs segs2 gas j a2
  refine ⟨?_, ?_, ?_, ?_, ?_, ?_, ?_⟩
  · intro h
    simp [ColumnMetadata.joined_struct, ColumnMetadata.is_join, ty_is_join, h,
      List.getLast?_concat, PathSegment.ident, PathSegment.arguments]
  · intro h
    simp [ColumnMetadata.joined_struct, ColumnMetadata.is_join, h]
  · intro h
    simp [ColumnMetadata.joined_struct, ColumnMetadata.is_join, ty_is_join, h,
      List.getLast?_concat, PathSegment.ident, PathSegment.arguments]
  · intro h
    simp [ColumnMetadata.joined_struct, ColumnMetadata.is_join, ty_is_join, h,
      List.getLast?_concat, PathSegment.ident, PathSegment.arguments]
  · intro h
    simp [ColumnMetadata.joined_struct, ColumnMetadata.is_join, ty_is_join, h,
      List.getLast?_concat, PathSegment.ident, PathSegment.arguments]
  · intro h
    simp [ColumnMetadata.joined_struct, ColumnMetadata.is_join, ty_is_join, h,
      List.getLast?_concat, PathSegment.ident, PathSegment.arguments]
  · intro h
    simp [ColumnMetadata.joined_struct, ColumnMetadata.is_join, ty_is_join, h,
      List.getLast?_concat, PathSegment.ident, PathSegment.arguments]

/-- C8 witness input: a column of type `Join<Customer>` with a join
directive. -/
def c8JoinCol : ColumnMetadata :=
  { column_name := "customer", column_type := joinTy ("Customer")
    marked_primary_key := false, has_database_default := false
    identifier := "customer"
    many_to_one_key := Option.some ("customer_id")
    many_to_many_table_name := Option.none
    one_to_many_foreign_key := Option.none }

/-- Witness for C8: the joined entity of `Join<Customer>` is `Customer`. -/
theorem c8_joined_struct_characterization_witness :
    c8JoinCol.joined_struct = Option.some ("Customer") :=
  (c8_joined_struct_characterization c8JoinCol [] [] [] ("Customer")
    PathArguments.noArgs).1 rfl

/-- C9: a column carrying the primary_key directive leaves the assembler
with both marked_primary_key and has_database_default set, and in every
successful table the published primary key names a column whose
has_database_default is set. -/
theorem c9_pk_has_database_default :
    (∀ (f : FieldDecl) (c : ColumnMetadata),
      ColumnMetadata.try_from f = Outcome.ok c →
      f.attrs.any (fun a => a.primary_key) = true →
      c.marked_primary_key = true ∧ c.has_database_default = true) ∧
    (∀ (ast : DeriveInput) (meta : TableMetadata) (pk : String),
      TableMetadata.try_from ast = Outcome.ok meta →
      meta.primary_key = Option.some pk →
      ∃ c, c ∈ meta.columns ∧ c.column_name = pk ∧ c.has_database_default = true) := by
  constructor
  · intro f c h hany
    exact (columnTryFrom_ok f c h).2.2.1 hany
  · intro ast meta pk h hpk
    obtain ⟨cols, hcols, htn, hdisj⟩ :=
      complete_ok_inv _ ast meta (tryFrom_ok_inv ast meta h)
    have hinv : ∀ c0 ∈ cols, c0.marked_primary_key = true →
        c0.has_database_default = true := by
      intro c0 hc0 hm
      obtain ⟨f, hf, ht⟩ := collectColumns_mem ast.fields cols hcols c0 hc0
      exact (columnTryFrom_ok f c0 ht).2.2.2.1 hm
    rcases hdisj with ⟨hsome, hpkeq, hcolseq⟩ | ⟨hnone, hpkeq, hcolseq⟩
    · rw [hpk, findMarkedPk_eq] at hpkeq
      cases hf : cols.find? (fun c => c.marked_primary_key) with
      | none => rw [hf] at hpkeq; cases hpkeq
      | some c0 =>
        rw [hf] at hpkeq
        have hname : c0.column_name = pk := by
          have := hpkeq.symm
          simpa using this
        have hmem := List.mem_of_find?_eq_some hf
        have hmark : c0.marked_primary_key = true := by
          have := List.find?_some hf
          simpa using this
        refine ⟨c0, ?_, hname, hinv c0 hmem hmark⟩
        rw [hcolseq]
        exact hmem
    · rw [hpkeq] at hpk
      obtain ⟨c', hmem, hname, hdef⟩ := inferPk_some meta.table_name cols pk hpk
      refine ⟨c', ?_, hname, hdef⟩
      rw [hcolseq]
      exact hmem

/-- C9 witness input: `sku: String` with the primary_key directive. -/
def c9SkuField : FieldDecl :=
  { ident := Option.some ("sku"), ty := plainTy ("String")
    attrs := [{ noColAttr with primary_key := true }] }

/-- The column produced for `c9SkuField`. -/
def c9SkuCol : ColumnMetadata :=
  { column_name := "sku", column_type := plainTy ("String")
    marked_primary_key := true, has_database_default := true
    identifier := "sku"
    many_to_one_key := Option.none
    many_to_many_table_name := Option.none
    one_to_many_foreign_key := Option.none }

/-- Witness for C9 at a concrete marked column. -/
theorem c9_pk_has_database_default_witness :
    c9SkuCol.marked_primary_key = true ∧ c9SkuCol.has_database_default = true :=
  c9_pk_has_database_default.1 c9SkuField c9SkuCol rfl rfl

/-- Witness for C7 at concrete types: a bare `Join` is a join, a qualified
generic `ormlite::Join<Customer>` is a join, and `i32` is not. -/
theorem c7_is_join_characterization_witness :
    ty_is_join (Ty.path ([] ++ [PathSegment.mk ("Join") PathArguments.noArgs])) =
      ("Join" == "Join") ∧
    ty_is_join (Ty.path ([pathSeg ("ormlite")] ++ [PathSegment.mk ("Join")
      (PathArguments.angleBracketed [GenericArg.type (plainTy ("Customer"))])])) =
      ("Join" == "Join") ∧
    ty_is_join (Ty.path ([] ++ [PathSegment.mk ("i32") PathArguments.noArgs])) =
      ("i32" == "Join") :=
  ⟨(c7_is_join_characterization).1 [] ("Join") PathArguments.noArgs,
   (c7_is_join_characterization).1 [pathSeg ("ormlite")] ("Join")
     (PathArguments.angleBracketed [GenericArg.type (plainTy ("Customer"))]),
   (c7_is_join_characterization).1 [] ("i32") PathArguments.noArgs⟩
